import Mathlib

/-!
Shallow embedding of the core of the Education-ChatBot repository
(`app.py`): the linguistic analyzer `analyze_user_input`, the scope
classifier `is_educational_query`, and the `/chat` handler's
per-session conversation-history management.  All definitions are
translated from the Python source; external collaborators (the NLTK
toolkit and the Gemini model backend) are abstracted as parameters.
Strings are treated at ASCII fidelity (all keywords, patterns and
concrete inputs involved are ASCII).
-/

namespace EduBot

/-- ASCII lowercasing of one character, as Python's `str.lower` acts on
ASCII letters. -/
def lowerChar (c : Char) : Char :=
  if 65 ≤ c.toNat ∧ c.toNat ≤ 90 then Char.ofNat (c.toNat + 32) else c

/-- `text.lower()` as a character list. -/
def lowerL (s : String) : List Char := s.data.map lowerChar

/-- Python's `needle in hay` on strings: contiguous-substring
containment (true for the empty needle). -/
def containsSub (hay needle : List Char) : Bool :=
  if needle.isPrefixOf hay then true
  else
    match hay with
    | [] => false
    | _ :: t => containsSub t needle

/-- The regular-expression fragment used by `is_educational_query`:
literal text, `.+` (one or more non-newline characters), concatenation
and alternation. -/
inductive RE : Type
  | lit (s : List Char)
  | anyPlus
  | seq (a b : RE)
  | alt (a b : RE)

/-- Suffixes of the input left after `.+` consumes one or more leading
non-newline characters. -/
def anyPlusSuffixes : List Char → List (List Char)
  | [] => []
  | c :: rest => if c = '\n' then [] else rest :: anyPlusSuffixes rest

/-- All suffixes of the input that remain after the expression matches a
prefix of it (regex-search semantics only needs nonemptiness). -/
def RE.matchPre : RE → List Char → List (List Char)
  | .lit s, input => if s.isPrefixOf input then [input.drop s.length] else []
  | .anyPlus, input => anyPlusSuffixes input
  | .seq a b, input => ((a.matchPre input).map b.matchPre).flatten
  | .alt a b, input => a.matchPre input ++ b.matchPre input

/-- `re.search`: does the expression match starting at some position? -/
def RE.search (r : RE) : List Char → Bool
  | [] => !(r.matchPre []).isEmpty
  | c :: rest => !(r.matchPre (c :: rest)).isEmpty || r.search rest

/-- Literal pattern text. -/
def lit (s : String) : RE := RE.lit s.data

/-- Left-nested alternation of a nonempty list of branches. -/
def altL (a : RE) (rest : List RE) : RE := rest.foldl RE.alt a

/-- Left-nested concatenation of a nonempty list of pieces. -/
def seqL (a : RE) (rest : List RE) : RE := rest.foldl RE.seq a

/-- `EDUCATIONAL_DOMAINS` from `app.py`. -/
def EDUCATIONAL_DOMAINS : List String :=
  ["mathematics", "algebra", "geometry", "calculus", "statistics", "probability",
   "physics", "chemistry", "biology", "anatomy", "astronomy", "earth science",
   "history", "geography", "civics", "economics", "political science",
   "literature", "grammar", "writing", "poetry", "language arts",
   "computer science", "programming", "data science", "artificial intelligence",
   "art history", "music theory", "philosophy", "psychology", "sociology",
   "foreign languages", "education", "study skills", "research methods"]

/-- The chat-history / self-reference patterns of `is_educational_query`. -/
def chat_patterns : List RE :=
  [seqL (altL (lit "previous") [lit "last", lit "earlier"])
        [lit " ", altL (lit "message") [lit "prompt", lit "question"]],
   seqL (lit "what ") [altL (lit "did") [lit "was"], lit " ",
        altL (lit "i") [lit "you"], lit " ",
        altL (lit "say") [lit "ask", lit "told", lit "tell"]],
   seqL (altL (lit "show") [lit "display", lit "get", lit "fetch"])
        [lit " ", altL (lit "my") [lit "the"], lit " ",
         altL (lit "history") [lit "conversation"]],
   seqL (lit "what ") [altL (lit "is") [lit "was"], lit " my"],
   seqL (lit "can you ") [altL (lit "remember") [lit "recall"]],
   seqL (lit "who ") [altL (lit "am i") [lit "are you"]]]

/-- The generic educational question-shape patterns of
`is_educational_query`. -/
def educational_patterns : List RE :=
  [seqL (lit "what ") [altL (lit "is") [lit "are", lit "was", lit "were"],
        lit " ", RE.anyPlus, lit "?"],
   seqL (lit "how ") [altL (lit "do") [lit "does", lit "can", lit "could"],
        lit " ", RE.anyPlus, lit "?"],
   seqL (lit "why ") [altL (lit "is") [lit "are", lit "does", lit "do"],
        lit " ", RE.anyPlus, lit "?"],
   RE.seq (lit "explain ") RE.anyPlus,
   RE.seq (lit "define ") RE.anyPlus,
   RE.seq (lit "describe ") RE.anyPlus,
   RE.seq (lit "teach me ") RE.anyPlus,
   RE.seq (lit "learn about ") RE.anyPlus,
   RE.seq (lit "understand ") RE.anyPlus,
   seqL (altL (lit "help") [lit "assist"])
        [lit " ", RE.anyPlus, lit " ", altL (lit "with") [lit "in"],
         lit " ", RE.anyPlus]]

/-- `is_educational_query(query)` from `app.py`: chat patterns, then the
educational-domain substring check, then the generic question patterns;
any hit returns true. -/
def is_educational_query (query : String) : Bool :=
  let ql := lowerL query
  chat_patterns.any (fun r => r.search ql)
    || EDUCATIONAL_DOMAINS.any (fun d => containsSub ql d.data)
    || educational_patterns.any (fun r => r.search ql)

/-- Python `token.isalnum()` at ASCII fidelity: nonempty and every
character a letter or digit. -/
def isAlnumPy (s : String) : Bool :=
  !s.data.isEmpty && s.data.all (fun c =>
    (48 ≤ c.toNat ∧ c.toNat ≤ 57) ∨ (65 ≤ c.toNat ∧ c.toNat ≤ 90)
      ∨ (97 ≤ c.toNat ∧ c.toNat ≤ 122))

/-- `pos.startswith(p)` on tag strings. -/
def startsWith (p s : String) : Bool := p.data.isPrefixOf s.data

/-- The external NLTK toolkit, abstracted: the fallible calls the code
makes (`word_tokenize`, `sent_tokenize`, `lemmatize`, `pos_tag`), the
stop-word set, and whether the lemmatizer initialized
(`lemmatizer is not None`). -/
structure Toolkit : Type where
  lemmatizerOk : Bool
  stop_words : List String
  word_tokenize : String → Except String (List String)
  sent_tokenize : String → Except String (List String)
  lemmatize : String → Except String String
  pos_tag : List String → Except String (List (String × String))

/-- `List.mapM` into `Except`, written out so proofs can unfold it. -/
def mapExcept (f : α → Except String β) : List α → Except String (List β)
  | [] => .ok []
  | a :: t =>
    match f a with
    | .error e => .error e
    | .ok b =>
      match mapExcept f t with
      | .error e => .error e
      | .ok bs => .ok (b :: bs)

/-- The analyzer's result: the fields of the dict `analyze_user_input`
returns (`sentence_count` and `word_count` are absent from the default
dict, hence `Option`). -/
structure Analysis : Type where
  tokens : List String
  key_concepts : List String
  question_type : String
  complexity : String
  sentence_count : Option Nat
  word_count : Option Nat
deriving DecidableEq, Repr

/-- The constant default the analyzer returns when the toolkit is
unavailable or any step raises. -/
def defaultAnalysis : Analysis :=
  ⟨[], [], "general", "medium", none, none⟩

/-- The `question_type` if/elif chain of `analyze_user_input`: substring
checks over the original lowercased text, first match wins. -/
def question_type_of (text : String) : String :=
  let tl := lowerL text
  if ["what", "define", "explain"].any (fun w => containsSub tl w.data) then "definition"
  else if ["how", "solve", "calculate"].any (fun w => containsSub tl w.data) then "procedural"
  else if ["why", "because", "reason"].any (fun w => containsSub tl w.data) then "conceptual"
  else if ["compare", "difference", "similar"].any (fun w => containsSub tl w.data) then "comparison"
  else "general"

/-- The stop-word/punctuation filter applied to the raw token list. -/
def meaningfulOf (tk : Toolkit) (tokens : List String) : List String :=
  tokens.filter (fun t => isAlnumPy t && !(tk.stop_words.contains t))

/-- Key-concept collection: the words whose coarse tag is noun-like or
adjective-like. -/
def keyConceptsOf (tags : List (String × String)) : List String :=
  (tags.filter (fun p => startsWith "NN" p.2 || startsWith "JJ" p.2)).map Prod.fst

/-- The complexity tier from the average sentence length (exact
rational, standing in for Python float division) and the key-concept
count. -/
def complexityOf (avg : ℚ) (kc : Nat) : String :=
  if 15 < avg ∨ 5 < kc then "high"
  else if avg < 8 ∧ kc < 3 then "low"
  else "medium"

/-- The body of `analyze_user_input`'s `try` block: any raising step
(including the division by zero on an empty sentence list) yields
`.error`, which the wrapper turns into `defaultAnalysis`. -/
def analyzeBody (tk : Toolkit) (text : String) : Except String Analysis :=
  match tk.word_tokenize (String.mk (lowerL text)) with
  | .error e => .error e
  | .ok tokens =>
    let meaningful_tokens := meaningfulOf tk tokens
    match mapExcept tk.lemmatize meaningful_tokens with
    | .error e => .error e
    | .ok lemmatized_tokens =>
      match tk.pos_tag meaningful_tokens with
      | .error e => .error e
      | .ok pos_tags =>
        let key_concepts := keyConceptsOf pos_tags
        let question_type := question_type_of text
        match tk.sent_tokenize text with
        | .error e => .error e
        | .ok sentences =>
          match mapExcept (fun s =>
              match tk.word_tokenize s with
              | .error e => .error e
              | .ok ws => .ok ws.length) sentences with
          | .error e => .error e
          | .ok lens =>
            if sentences.length = 0 then .error "ZeroDivisionError"
            else
              let avg : ℚ := (lens.sum : ℚ) / (sentences.length : ℚ)
              .ok ⟨lemmatized_tokens, key_concepts, question_type,
                   complexityOf avg key_concepts.length,
                   some sentences.length, some meaningful_tokens.length⟩

/-- `analyze_user_input(text)` from `app.py`: the guard
`if not lemmatizer or not stop_words` and the `except` fallback both
produce `defaultAnalysis`. -/
def analyze_user_input (tk : Toolkit) (text : String) : Analysis :=
  if !tk.lemmatizerOk || tk.stop_words.isEmpty then defaultAnalysis
  else
    match analyzeBody tk text with
    | .ok a => a
    | .error _ => defaultAnalysis

/-- The variant of `analyzeBody` the spec describes: part-of-speech
tagging (and hence key-concept collection) applied to the LEMMATIZED
tokens rather than to the filtered tokens.  Kept beside the source
translation to compare the two dataflows. -/
def analyzeBodyClaimed (tk : Toolkit) (text : String) : Except String Analysis :=
  match tk.word_tokenize (String.mk (lowerL text)) with
  | .error e => .error e
  | .ok tokens =>
    let meaningful_tokens := meaningfulOf tk tokens
    match mapExcept tk.lemmatize meaningful_tokens with
    | .error e => .error e
    | .ok lemmatized_tokens =>
      match tk.pos_tag lemmatized_tokens with
      | .error e => .error e
      | .ok pos_tags =>
        let key_concepts := keyConceptsOf pos_tags
        let question_type := question_type_of text
        match tk.sent_tokenize text with
        | .error e => .error e
        | .ok sentences =>
          match mapExcept (fun s =>
              match tk.word_tokenize s with
              | .error e => .error e
              | .ok ws => .ok ws.length) sentences with
          | .error e => .error e
          | .ok lens =>
            if sentences.length = 0 then .error "ZeroDivisionError"
            else
              let avg : ℚ := (lens.sum : ℚ) / (sentences.length : ℚ)
              .ok ⟨lemmatized_tokens, key_concepts, question_type,
                   complexityOf avg key_concepts.length,
                   some sentences.length, some meaningful_tokens.length⟩

/-- `analyze_user_input` built on the spec's claimed dataflow. -/
def analyze_user_input_claimed (tk : Toolkit) (text : String) : Analysis :=
  if !tk.lemmatizerOk || tk.stop_words.isEmpty then defaultAnalysis
  else
    match analyzeBodyClaimed tk text with
    | .ok a => a
    | .error _ => defaultAnalysis

/-- A turn's role. -/
inductive Role : Type
  | user
  | assistant
deriving DecidableEq, Repr

/-- One conversation turn: the `{"role": ..., "content": ...}` dicts of
`conversation_history`. -/
structure Turn : Type where
  role : Role
  content : String
deriving DecidableEq, Repr

/-- The post-append truncation `if len(h) > 20: h = h[-20:]`. -/
def trim20 (h : List Turn) : List Turn :=
  if 20 < h.length then h.drop (h.length - 20) else h

/-- `history_to_include = h[-10:] if len(h) > 5 else h`: the slice of
the stored history sent to the model backend. -/
def contextSlice (h : List Turn) : List Turn :=
  if 5 < h.length then h.drop (h.length - 10) else h

/-- The canned refusal returned for out-of-scope requests. -/
def refusalMsg : String :=
  "I'm an educational assistant and can help you with academic topics like math, science, history, and literature. Could you please ask me something related to education or learning?"

/-- The JSON body the handler returns: success carries reply, history
and analysis; failure carries the error string and HTTP status. -/
inductive Resp : Type
  | ok (reply : String) (history : List Turn) (analysis : Analysis)
  | err (msg : String) (status : Nat)
deriving DecidableEq, Repr

/-- One `/chat` call's observable outcome: the response, the session's
stored history after the call, how many times the model backend was
invoked, and the history slice it was invoked on (if any). -/
structure ChatResult : Type where
  resp : Resp
  history : List Turn
  backendCalls : Nat
  sentContext : Option (List Turn)
deriving DecidableEq, Repr

/-- The `/chat` handler of `app.py` for one session, with the model
backend abstracted as a function from the included history slice to a
reply or an exception.  `configured` is `GEMINI_API_KEY and client`;
`hist` is `conversation_history[session_id]` before the call; `msg` is
`data.get('message')` (`none` = absent). -/
def chat (configured : Bool) (tk : Toolkit) (hist : List Turn)
    (msg : Option String) (backend : List Turn → Except String String) :
    ChatResult :=
  if !configured then
    ⟨.err "Google Gemini API key not set. Please check your .env file." 500,
     hist, 0, none⟩
  else
    match msg with
    | none => ⟨.err "No message provided" 400, hist, 0, none⟩
    | some user_input =>
      if user_input = "" then ⟨.err "No message provided" 400, hist, 0, none⟩
      else
        let hist1 := hist ++ [⟨.user, user_input⟩]
        let input_analysis := analyze_user_input tk user_input
        if !is_educational_query user_input then
          let hist2 := trim20 (hist1 ++ [⟨.assistant, refusalMsg⟩])
          ⟨.ok refusalMsg hist2 input_analysis, hist2, 0, none⟩
        else
          let ctx := contextSlice hist1
          match backend ctx with
          | .error e =>
            ⟨.err ("An unexpected error occurred: " ++ e) 500, hist1, 1, some ctx⟩
          | .ok bot_reply =>
            let hist2 := trim20 (hist1 ++ [⟨.assistant, bot_reply⟩])
            ⟨.ok bot_reply hist2 input_analysis, hist2, 1, some ctx⟩

/-- `GET /history` for one session: the stored history as-is. -/
def get_history (hist : List Turn) : List Turn := hist


/-- Toolkit whose lemmatizer failed to initialize (the `except` arm of
the NLTK component setup: `lemmatizer = None`, `stop_words = set()`). -/
def tkUnavailable : Toolkit :=
  ⟨false, [], fun _ => .error "unavailable", fun _ => .error "unavailable",
   fun _ => .error "unavailable", fun _ => .error "unavailable"⟩

/-- A model backend that always answers with the fixed reply. -/
def okBackend : List Turn → Except String String := fun _ => .ok "reply"

/-- A model backend whose call raises. -/
def failBackend : List Turn → Except String String := fun _ => .error "boom"

/-- A concrete toolkit: one-token tokenizer, identity-like lemmatizer
except that "dogs" lemmatizes to "dog", every token tagged "NN". -/
def tkConcrete : Toolkit :=
  ⟨true, ["the"],
   fun s => .ok [s],
   fun s => .ok [s],
   fun t => .ok (if t = "dogs" then "dog" else t),
   fun ts => .ok (ts.map (fun t => (t, "NN")))⟩

/-- The spec's presentation of the question-type rules: an ordered list
of (keyword set, label) pairs, evaluated first-match-wins over the
lowercased text, defaulting to "general". -/
def qtypeRules : List (List String × String) :=
  [(["what", "define", "explain"], "definition"),
   (["how", "solve", "calculate"], "procedural"),
   (["why", "because", "reason"], "conceptual"),
   (["compare", "difference", "similar"], "comparison")]

/-- Question-type label per the spec's rule list. -/
def question_type_spec (text : String) : String :=
  ((qtypeRules.find? (fun r =>
      r.1.any (fun w => containsSub (lowerL text) w.data))).map Prod.snd).getD "general"

theorem trim20_length (l : List Turn) : (trim20 l).length = min l.length 20 := by
  unfold trim20
  split
  · rename_i h
    rw [List.length_drop]
    omega
  · rename_i h
    omega

theorem trim20_suffix (l : List Turn) : (trim20 l).IsSuffix l := by
  unfold trim20
  split
  · exact List.drop_suffix _ _
  · exact List.suffix_refl _

theorem contextSlice_length (h : List Turn) :
    (contextSlice h).length = if 5 < h.length then min h.length 10 else h.length := by
  unfold contextSlice
  split
  · rw [List.length_drop]
    omega
  · omega

theorem contextSlice_suffix (h : List Turn) : (contextSlice h).IsSuffix h := by
  unfold contextSlice
  split
  · exact List.drop_suffix _ _
  · exact List.suffix_refl _

/-- C1, counterexample: with a 20-turn stored history (itself an
at-rest state the trimming produces), an in-scope message whose backend
call raises leaves the history at 21 turns when the handler call
completes — the length-20 invariant does not hold at rest after
backend-failure calls, because the user-turn append is never followed
by a trim. -/
theorem C1_cex :
    ¬ ((chat true tkUnavailable (List.replicate 20 ⟨Role.user, "a"⟩)
        (some "explain recursion") failBackend).history.length ≤ 20) := by
  decide

/-- C1, amended: the chat handler trims to the most recent 20 turns
after every ASSISTANT-turn append, so any call that returns a reply
(model success or canned refusal) leaves the stored history at length
at most 20 and a suffix — most recent turns, original order — of the
old history extended by the new user and assistant turns; a call where
the backend fails leaves the untrimmed user turn, so a history of at
most 20 turns grows to at most 21. -/
theorem C1_trim (tk : Toolkit) (hist : List Turn) (m : String)
    (backend : List Turn → Except String String) (hm : m ≠ "") :
    (∀ reply h a, (chat true tk hist (some m) backend).resp = .ok reply h a →
      (chat true tk hist (some m) backend).history.length ≤ 20 ∧
      (chat true tk hist (some m) backend).history.IsSuffix
        (hist ++ [⟨Role.user, m⟩, ⟨Role.assistant, reply⟩])) ∧
    (hist.length ≤ 20 → (chat true tk hist (some m) backend).history.length ≤ 21) := by
  cases hq : is_educational_query m with
  | false =>
    constructor
    · intro reply h a hr
      simp only [chat] at hr ⊢
      simp [hm, hq] at hr ⊢
      obtain ⟨hrep, -, -⟩ := hr
      subst hrep
      constructor
      · rw [trim20_length]
        omega
      · have hs := trim20_suffix ((hist ++ [⟨Role.user, m⟩]) ++ [⟨Role.assistant, refusalMsg⟩])
        rw [show hist ++ [(⟨Role.user, m⟩ : Turn), ⟨Role.assistant, refusalMsg⟩]
              = (hist ++ [⟨Role.user, m⟩]) ++ [⟨Role.assistant, refusalMsg⟩] by simp]
        exact hs
    · intro hle
      simp [chat, hm, hq, trim20_length]
  | true =>
    cases hb : backend (contextSlice (hist ++ [⟨Role.user, m⟩])) with
    | error e =>
      constructor
      · intro reply h a hr
        simp [chat, hm, hq, hb] at hr
      · intro hle
        simp [chat, hm, hq, hb]
        omega
    | ok reply0 =>
      constructor
      · intro reply h a hr
        simp only [chat] at hr ⊢
        simp [hm, hq, hb] at hr ⊢
        obtain ⟨hrep, -, -⟩ := hr
        subst hrep
        constructor
        · rw [trim20_length]
          omega
        · have hs := trim20_suffix ((hist ++ [⟨Role.user, m⟩]) ++ [⟨Role.assistant, reply0⟩])
          rw [show hist ++ [(⟨Role.user, m⟩ : Turn), ⟨Role.assistant, reply0⟩]
                = (hist ++ [⟨Role.user, m⟩]) ++ [⟨Role.assistant, reply0⟩] by simp]
          exact hs
      · intro hle
        simp [chat, hm, hq, hb, trim20_length]

/-- C1, witness: a concrete successful call leaves the stored history
within the 20-turn bound and in order. -/
theorem C1_witness :
    (chat true tkUnavailable [] (some "explain recursion") okBackend).history.length ≤ 20 ∧
    (chat true tkUnavailable [] (some "explain recursion") okBackend).history.IsSuffix
      ([] ++ [⟨Role.user, "explain recursion"⟩, ⟨Role.assistant, "reply"⟩]) :=
  (C1_trim tkUnavailable [] "explain recursion" okBackend (by decide)).1 "reply"
    (trim20 (([] ++ [⟨Role.user, "explain recursion"⟩]) ++ [⟨Role.assistant, "reply"⟩]))
    defaultAnalysis (by decide)

/-- C2: for a nonempty in-scope message the context slice handed to the
model backend is exactly `min(len, 10)` turns when the stored length
(user turn included) exceeds 5, and all stored turns otherwise, and it
is a suffix of the stored history — the most recent turns in original
order. -/
theorem C2_context_slice (tk : Toolkit) (hist : List Turn) (m : String)
    (backend : List Turn → Except String String)
    (hm : m ≠ "") (hin : is_educational_query m = true) :
    ∃ ctx, (chat true tk hist (some m) backend).sentContext = some ctx ∧
      ctx.length = (if 5 < hist.length + 1 then min (hist.length + 1) 10 else hist.length + 1) ∧
      ctx.IsSuffix (hist ++ [⟨Role.user, m⟩]) := by
  refine ⟨contextSlice (hist ++ [⟨Role.user, m⟩]), ?_, ?_, contextSlice_suffix _⟩
  · cases hb : backend (contextSlice (hist ++ [⟨Role.user, m⟩])) <;>
      simp [chat, hm, hin, hb]
  · rw [contextSlice_length]
    simp

/-- C2, witness: with 7 stored turns plus the new user turn, the
backend receives the last 8 turns. -/
theorem C2_witness :
    ∃ ctx, (chat true tkUnavailable (List.replicate 7 ⟨Role.user, "a"⟩)
        (some "explain recursion") okBackend).sentContext = some ctx ∧
      ctx.length = (if 5 < (List.replicate 7 (⟨Role.user, "a"⟩ : Turn)).length + 1
          then min ((List.replicate 7 (⟨Role.user, "a"⟩ : Turn)).length + 1) 10
          else (List.replicate 7 (⟨Role.user, "a"⟩ : Turn)).length + 1) ∧
      ctx.IsSuffix (List.replicate 7 ⟨Role.user, "a"⟩ ++ [⟨Role.user, "explain recursion"⟩]) :=
  C2_context_slice tkUnavailable (List.replicate 7 ⟨Role.user, "a"⟩) "explain recursion"
    okBackend (by decide) (by decide)

/-- C3: for every nonempty message the Scope Classifier judges out of
scope, the handler never invokes the model backend, appends the fixed
canned refusal as an assistant turn after the user turn (then trims),
and returns the refusal together with the stored history and the
analysis. -/
theorem C3_refusal (tk : Toolkit) (hist : List Turn) (m : String)
    (backend : List Turn → Except String String)
    (hm : m ≠ "") (hoos : is_educational_query m = false) :
    (chat true tk hist (some m) backend).backendCalls = 0 ∧
    (chat true tk hist (some m) backend).sentContext = none ∧
    (chat true tk hist (some m) backend).history
      = trim20 (hist ++ [⟨Role.user, m⟩, ⟨Role.assistant, refusalMsg⟩]) ∧
    (chat true tk hist (some m) backend).resp
      = .ok refusalMsg ((chat true tk hist (some m) backend).history)
          (analyze_user_input tk m) := by
  simp [chat, hm, hoos]

/-- C3, witness: the out-of-scope message "hello" gets the canned
refusal and no backend call. -/
theorem C3_witness :
    (chat true tkUnavailable [] (some "hello") okBackend).backendCalls = 0 ∧
    (chat true tkUnavailable [] (some "hello") okBackend).sentContext = none ∧
    (chat true tkUnavailable [] (some "hello") okBackend).history
      = trim20 ([] ++ [⟨Role.user, "hello"⟩, ⟨Role.assistant, refusalMsg⟩]) ∧
    (chat true tkUnavailable [] (some "hello") okBackend).resp
      = .ok refusalMsg ((chat true tkUnavailable [] (some "hello") okBackend).history)
          (analyze_user_input tkUnavailable "hello") :=
  C3_refusal tkUnavailable [] "hello" okBackend (by decide) (by decide)

/-- C4: an absent or empty message makes the (configured) handler fail
with the 400-class validation error, with no turn appended to the
session history and no backend call. -/
theorem C4_empty_message (tk : Toolkit) (hist : List Turn)
    (m : Option String) (backend : List Turn → Except String String)
    (hm : m = none ∨ m = some "") :
    (chat true tk hist m backend).resp = .err "No message provided" 400 ∧
    (chat true tk hist m backend).history = hist ∧
    (chat true tk hist m backend).backendCalls = 0 := by
  rcases hm with hm | hm <;> subst hm <;> exact ⟨rfl, rfl, rfl⟩

/-- C4, witness: the empty message string. -/
theorem C4_witness :
    (chat true tkUnavailable [] (some "") okBackend).resp = .err "No message provided" 400 ∧
    (chat true tkUnavailable [] (some "") okBackend).history = [] ∧
    (chat true tkUnavailable [] (some "") okBackend).backendCalls = 0 :=
  C4_empty_message tkUnavailable [] (some "") okBackend (Or.inr rfl)

/-- C5: when the backend call raises, the handler surfaces the
underlying message in an error response, calls the backend exactly once
(no retry), and the user turn appended before the call remains in the
stored history, so a subsequent history fetch still shows it. -/
theorem C5_backend_failure (tk : Toolkit) (hist : List Turn) (m e : String)
    (backend : List Turn → Except String String)
    (hm : m ≠ "") (hin : is_educational_query m = true)
    (hb : backend (contextSlice (hist ++ [⟨Role.user, m⟩])) = .error e) :
    (chat true tk hist (some m) backend).resp
      = .err ("An unexpected error occurred: " ++ e) 500 ∧
    (chat true tk hist (some m) backend).backendCalls = 1 ∧
    (chat true tk hist (some m) backend).history = hist ++ [⟨Role.user, m⟩] ∧
    ⟨Role.user, m⟩ ∈ get_history ((chat true tk hist (some m) backend).history) := by
  have hmem : (⟨Role.user, m⟩ : Turn) ∈ hist ++ [⟨Role.user, m⟩] := by
    simp
  simp [chat, hm, hin, hb, get_history, hmem]

/-- C5, witness: a raising backend on an in-scope message. -/
theorem C5_witness :
    (chat true tkUnavailable [] (some "explain recursion") failBackend).resp
      = .err ("An unexpected error occurred: " ++ "boom") 500 ∧
    (chat true tkUnavailable [] (some "explain recursion") failBackend).backendCalls = 1 ∧
    (chat true tkUnavailable [] (some "explain recursion") failBackend).history
      = [] ++ [⟨Role.user, "explain recursion"⟩] ∧
    (⟨Role.user, "explain recursion"⟩ : Turn)
      ∈ get_history ((chat true tkUnavailable [] (some "explain recursion") failBackend).history) :=
  C5_backend_failure tkUnavailable [] "explain recursion" "boom" failBackend
    (by decide) (by decide) rfl

/-- C6: for every input text the source's sequential if/elif
question-type chain computes exactly the first-match-wins ordered rule
list over substrings of the lowercased text — definition before
procedural before conceptual before comparison, else general. -/
theorem C6_question_type (text : String) :
    question_type_of text = question_type_spec text := by
  unfold question_type_of question_type_spec qtypeRules
  cases h1 : (["what", "define", "explain"].any (fun w => containsSub (lowerL text) w.data)) <;>
  cases h2 : (["how", "solve", "calculate"].any (fun w => containsSub (lowerL text) w.data)) <;>
  cases h3 : (["why", "because", "reason"].any (fun w => containsSub (lowerL text) w.data)) <;>
  cases h4 : (["compare", "difference", "similar"].any (fun w => containsSub (lowerL text) w.data)) <;>
  simp [List.find?, h1, h2, h3, h4]

/-- C7: if the linguistic toolkit is unavailable (lemmatizer or
stop-word set failed to initialize) or any step of the extraction
raises, the Extractor returns the constant default summary (empty
tokens and concepts, question type "general", complexity "medium"),
and an in-scope request with such a toolkit still succeeds — extraction
failure never fails the request. -/
theorem C7_degradation (tk : Toolkit) (text : String)
    (h : tk.lemmatizerOk = false ∨ tk.stop_words = [] ∨ ∃ e, analyzeBody tk text = .error e) :
    analyze_user_input tk text = defaultAnalysis ∧
    (∀ hist backend reply, text ≠ "" → is_educational_query text = true →
      backend (contextSlice (hist ++ [⟨Role.user, text⟩])) = .ok reply →
      (chat true tk hist (some text) backend).resp =
        .ok reply (trim20 (hist ++ [⟨Role.user, text⟩] ++ [⟨Role.assistant, reply⟩]))
          (analyze_user_input tk text)) := by
  constructor
  · unfold analyze_user_input
    rcases h with h | h | ⟨e, h⟩
    · simp [h]
    · simp [h]
    · split
      · rfl
      · rw [h]
  · intro hist backend reply hm hin hb
    simp [chat, hm, hin, hb]

/-- C7, witness: the toolkit whose initialization failed degrades to
the default summary and the request still succeeds. -/
theorem C7_witness :
    analyze_user_input tkUnavailable "explain recursion" = defaultAnalysis ∧
    (∀ hist backend reply, "explain recursion" ≠ "" →
      is_educational_query "explain recursion" = true →
      backend (contextSlice (hist ++ [⟨Role.user, "explain recursion"⟩])) = .ok reply →
      (chat true tkUnavailable hist (some "explain recursion") backend).resp =
        .ok reply (trim20 (hist ++ [⟨Role.user, "explain recursion"⟩]
            ++ [⟨Role.assistant, reply⟩]))
          (analyze_user_input tkUnavailable "explain recursion")) :=
  C7_degradation tkUnavailable "explain recursion" (Or.inl rfl)

/-- C8, counterexample: with a lemmatizer sending "dogs" to "dog" and a
tagger marking every token "NN", the code's key concepts for input
"dogs" are the UNlemmatized surviving tokens (["dogs"]), not the
lemmatized ones (["dog"]) the claim describes — `pos_tag` is applied to
`meaningful_tokens`, not to `lemmatized_tokens`. -/
theorem C8_cex :
    (analyze_user_input tkConcrete "dogs").key_concepts = ["dogs"] ∧
    (analyze_user_input_claimed tkConcrete "dogs").key_concepts = ["dog"] ∧
    (analyze_user_input tkConcrete "dogs").key_concepts
      ≠ (analyze_user_input_claimed tkConcrete "dogs").key_concepts := by
  refine ⟨?_, ?_, ?_⟩ <;> decide

/-- C8, amended: part-of-speech tagging and key-concept collection
operate on the surviving stop-word- and punctuation-filtered tokens
BEFORE lemmatization: whenever extraction succeeds, the key concepts
are the noun-like or adjective-like words of the tags produced for the
filtered (unlemmatized) tokens; only the tokens field carries the
lemmatized forms. -/
theorem C8_tagging (tk : Toolkit) (text : String) (toks : List String)
    (tags : List (String × String)) (a : Analysis)
    (h1 : tk.word_tokenize (String.mk (lowerL text)) = .ok toks)
    (h2 : tk.pos_tag (meaningfulOf tk toks) = .ok tags)
    (h3 : analyzeBody tk text = .ok a) :
    a.key_concepts = keyConceptsOf tags := by
  unfold analyzeBody at h3
  simp only [h1, h2] at h3
  cases hl : mapExcept tk.lemmatize (meaningfulOf tk toks) with
  | error e => rw [hl] at h3; exact Except.noConfusion h3
  | ok lems =>
    rw [hl] at h3
    dsimp only at h3
    cases hs : tk.sent_tokenize text with
    | error e => rw [hs] at h3; exact Except.noConfusion h3
    | ok sentences =>
      rw [hs] at h3
      dsimp only at h3
      cases hw : mapExcept (fun s =>
          match tk.word_tokenize s with
          | .error e => .error e
          | .ok ws => .ok ws.length) sentences with
      | error e => rw [hw] at h3; exact Except.noConfusion h3
      | ok lens =>
        rw [hw] at h3
        dsimp only at h3
        split at h3
        · exact Except.noConfusion h3
        · injection h3 with h4
          rw [← h4]

/-- C8, witness: the amended dataflow at the concrete toolkit and input
"dogs". -/
theorem C8_witness :
    (Analysis.mk ["dog"] ["dogs"] "general" "low" (some 1) (some 1)).key_concepts
      = keyConceptsOf [("dogs", "NN")] :=
  C8_tagging tkConcrete "dogs" ["dogs"] [("dogs", "NN")]
    (Analysis.mk ["dog"] ["dogs"] "general" "low" (some 1) (some 1))
    (by rfl) (by rfl)
    (by simp [analyzeBody, tkConcrete, mapExcept, meaningfulOf, isAlnumPy, keyConceptsOf,
      startsWith, question_type_of, complexityOf, containsSub, lowerL, lowerChar])

/-- C9, counterexample: the Scope Classifier does NOT return true for
the input string (the claim asserts it matches the generic "what is"
question shape, but the contraction in the text does not). -/
theorem C9_cex : ¬ (is_educational_query "What's the weather today?" = true) := by
  decide

/-- C9, amended: the Scope Classifier returns false for the input: the
contraction does not match the pattern requiring the literal
space-separated sequence "what is/are/was/were", and the text contains
no domain keyword and matches no other pattern, so the message is
classified out of scope. -/
theorem C9_out_of_scope : is_educational_query "What's the weather today?" = false := by
  decide

/-- C10, counterexample: the educational-domain set has 35 keywords,
not the 34 the claim names. -/
theorem C10_cex : EDUCATIONAL_DOMAINS.length = 35 ∧ EDUCATIONAL_DOMAINS.length ≠ 34 := by
  decide

/-- C10, amended: the domain check is plain substring containment on
the lowercased text with no word-boundary requirement — any message
containing one of the 35 domain keywords as a contiguous substring,
even inside a longer word, is classified in-scope. -/
theorem C10_domain_substring (q : String)
    (h : EDUCATIONAL_DOMAINS.any (fun d => containsSub (lowerL q) d.data) = true) :
    EDUCATIONAL_DOMAINS.length = 35 ∧ is_educational_query q = true := by
  refine ⟨by decide, ?_⟩
  unfold is_educational_query
  simp [h]

/-- C10, witness: "prehistory" contains the domain keyword "history"
inside a longer word and is classified in-scope. -/
theorem C10_witness : EDUCATIONAL_DOMAINS.length = 35 ∧ is_educational_query "prehistory" = true :=
  C10_domain_substring "prehistory" (by decide)

end EduBot
